import Mathlib

/-!
Shallow embedding of the `trike_project` repository: two SPI device drivers,
`AD5628.py` (an 8-channel DAC) and `AD7193.py` (a multiplexed ADC).

Modelling conventions:
* Python `int` is embedded as `Int` (arbitrary precision, two's complement
  bitwise semantics).  Python `x | y` is `Int.lor`, Python `x & y` is
  `Int.land`, and Python `x << n` with a constant non-negative shift count
  `n` is `x * 2 ^ n` (exactly Python's semantics for any sign of `x`).
* A fallible Python method is embedded as a function into `Except E (List Nat)`
  where `.ok bs` means the method completed and wrote exactly the bytes `bs`
  to the SPI transport, and `.error e` means the method raised the exception
  `e` before any byte reached the transport.  In every method modelled here
  each `raise` site (and each raising library call) occurs strictly before
  the `spi.write` call, so an error result always means nothing was sent.
* `int.to_bytes(4, 'big')` raises `OverflowError` when the value is negative
  or does not fit in 4 bytes; otherwise it yields the 4 big-endian bytes.
-/

namespace AD5628

/-- Python exceptions raised by the `AD5628` methods.  `invalidChannel` and
`invalidClearCode` are the two explicit `raise ValueError` sites,
`negativeShiftCount` is the `ValueError` Python raises for `1 << channel`
with a negative `channel`, and `overflowError` is the `OverflowError` raised
by `int.to_bytes` on a negative or oversized value. -/
inductive DacError where
  | invalidChannel
  | invalidClearCode
  | negativeShiftCount
  | overflowError
deriving DecidableEq

/-- Constant `MAX_CHANNELS = 8`. -/
def MAX_CHANNELS : Int := 8

/-- Constant `CMD_UPDATE_DAC = const(0x01)`. -/
def CMD_UPDATE_DAC : Int := 0x01

/-- Constant `CMD_WRITE_AND_UPDATE_DAC = const(0x03)`. -/
def CMD_WRITE_AND_UPDATE_DAC : Int := 0x03

/-- Constant `CMD_LOAD_CLEAR_CODE = const(0x05)`. -/
def CMD_LOAD_CLEAR_CODE : Int := 0x05

/-- Constant `CMD_LOAD_LDAC = const(0x06)`. -/
def CMD_LOAD_LDAC : Int := 0x06

/-- Constant `DAC_ALL_CHANNELS = 0x0F`. -/
def DAC_ALL_CHANNELS : Int := 0x0F

/-- Bits of `n` that are not bits of `m` (set difference on binary digits),
written with kernel-computable operations: the common bits `n &&& m` form a
sub-mask of `n`, so removing them is an xor. -/
def natDiff (n m : Nat) : Nat := n ^^^ (n &&& m)

/-- Python `x | y` on ints: two's-complement bitwise or.  On negative
operands `-(k+1)` the digits are the complement of the digits of `k`, which
gives the four cases below (the same case analysis as `Int.lor`). -/
def pyOr (x y : Int) : Int :=
  match x, y with
  | .ofNat m, .ofNat n => .ofNat (m ||| n)
  | .ofNat m, .negSucc n => .negSucc (natDiff n m)
  | .negSucc m, .ofNat n => .negSucc (natDiff m n)
  | .negSucc m, .negSucc n => .negSucc (m &&& n)

/-- Python `x & y` on ints: two's-complement bitwise and (the same case
analysis as `Int.land`). -/
def pyAnd (x y : Int) : Int :=
  match x, y with
  | .ofNat m, .ofNat n => .ofNat (m &&& n)
  | .ofNat m, .negSucc n => .ofNat (natDiff m n)
  | .negSucc m, .ofNat n => .ofNat (natDiff n m)
  | .negSucc m, .negSucc n => .negSucc (m ||| n)

/-- The 4 big-endian bytes of a value below `2 ^ 32`. -/
def beBytes4 (w : Nat) : List Nat :=
  [w / 2 ^ 24 % 256, w / 2 ^ 16 % 256, w / 2 ^ 8 % 256, w % 256]

/-- Python `value.to_bytes(4, 'big')`: the 4 big-endian bytes, or `OverflowError`
when the value is negative or does not fit in 4 bytes. -/
def to_bytes_4_big (value : Int) : Except DacError (List Nat) :=
  if 0 ≤ value ∧ value < 2 ^ 32 then .ok (beBytes4 value.toNat)
  else .error .overflowError

/-- Method `send_data(self, value)`: converts `value` to 4 big-endian bytes and
writes them to the SPI device.  The `.ok` payload is the byte sequence
written. -/
def send_data (value : Int) : Except DacError (List Nat) :=
  to_bytes_4_big value

/-- Method `update_dac(self, channel, data)`:
```
if channel >= MAX_CHANNELS and channel != DAC_ALL_CHANNELS:
    raise ValueError("Invalid channel")
command = (CMD_UPDATE_DAC << 24) | (channel << 20) | (data << 8)
self.send_data(command)
``` -/
def update_dac (channel data : Int) : Except DacError (List Nat) :=
  if MAX_CHANNELS ≤ channel ∧ channel ≠ DAC_ALL_CHANNELS then
    .error .invalidChannel
  else
    send_data (pyOr (pyOr (CMD_UPDATE_DAC * 2 ^ 24) (channel * 2 ^ 20)) (data * 2 ^ 8))

/-- Method `write_update_dac(self, channel, data)`: same as `update_dac` but with
opcode `CMD_WRITE_AND_UPDATE_DAC`. -/
def write_update_dac (channel data : Int) : Except DacError (List Nat) :=
  if MAX_CHANNELS ≤ channel ∧ channel ≠ DAC_ALL_CHANNELS then
    .error .invalidChannel
  else
    send_data (pyOr (pyOr (CMD_WRITE_AND_UPDATE_DAC * 2 ^ 24) (channel * 2 ^ 20)) (data * 2 ^ 8))

/-- Method `load_clear_code(self, code)`:
```
if code not in [0x00, 0x80000, 0xFFFFF]:
    raise ValueError("Invalid clear code, ...")
command = (CMD_LOAD_CLEAR_CODE << 24) | (code & 0xFFFFF)
self.send_data(command)
``` -/
def load_clear_code (code : Int) : Except DacError (List Nat) :=
  if ¬(code = 0x00 ∨ code = 0x80000 ∨ code = 0xFFFFF) then
    .error .invalidClearCode
  else
    send_data (pyOr (CMD_LOAD_CLEAR_CODE * 2 ^ 24) (pyAnd code 0xFFFFF))

/-- Method `load_ldac(self, channel)`:
```
if channel >= MAX_CHANNELS and channel != DAC_ALL_CHANNELS:
    raise ValueError("Invalid channel")
ldac_value = (0x01 << channel) & 0xFF
command = (CMD_LOAD_LDAC << 24) | (ldac_value << 8)
self.send_data(command)
```
Python raises `ValueError: negative shift count` for `0x01 << channel`
when `channel` is negative (the validation above does not catch negatives),
embedded as `negativeShiftCount`. -/
def load_ldac (channel : Int) : Except DacError (List Nat) :=
  if MAX_CHANNELS ≤ channel ∧ channel ≠ DAC_ALL_CHANNELS then
    .error .invalidChannel
  else if channel < 0 then
    .error .negativeShiftCount
  else
    send_data (pyOr (CMD_LOAD_LDAC * 2 ^ 24) (pyAnd (0x01 * 2 ^ channel.toNat) 0xFF * 2 ^ 8))

end AD5628

namespace AD7193

/-- Python exceptions raised by the `AD7193` methods: the four explicit
`raise ValueError` sites in `configure_adc` (invalid mode / polarity / gain /
channel), the `TypeError` raised by `bytes([command]) + value` in
`write_register` when `value` is an `int`, and the `TimeoutError` raised by
`wait_for_data_ready`. -/
inductive AdcError where
  | invalidMode
  | invalidPolarity
  | invalidGain
  | invalidChannel
  | typeError
  | timeout
deriving DecidableEq

/-- Constant `CONFIGURATION_REGISTER = 0x02`. -/
def CONFIGURATION_REGISTER : Nat := 0x02

/-- Constant `STATUS_REGISTER = 0x00`. -/
def STATUS_REGISTER : Nat := 0x00

/-- A Python value passed as the `value` argument of `write_register`:
either an `int` or a `bytes` object (a list of byte values). -/
inductive PyVal where
  | int (v : Int)
  | bytes (bs : List Nat)

/-- The command byte `(register << 3) & 0xF8` built by `write_register`
(write operation: read flag clear). -/
def write_command (register : Nat) : Nat := (register <<< 3) &&& 0xF8

/-- The command byte `((register << 3) | 0x40) & 0xFF` built by
`read_register` (read operation: read flag `0x40` set). -/
def read_command (register : Nat) : Nat := ((register <<< 3) ||| 0x40) &&& 0xFF

/-- Method `write_register(self, register, value)`:
```
command = (register << 3) & 0xF8
data = bytes([command]) + value
with self.spi_device as spi:
    spi.write(data)
```
When `value` is a `bytes` object the device receives `command`
followed by the payload; when `value` is an `int` (as in `configure_adc`)
the concatenation `bytes([command]) + value` raises `TypeError` before the
`with` block is entered, so nothing is written. -/
def write_register (register : Nat) (value : PyVal) : Except AdcError (List Nat) :=
  match value with
  | .bytes bs => .ok (write_command register :: bs)
  | .int _ => .error .typeError

/-- Method `read_register(self, register, length)`: writes the single command byte
(read flag set) and reads `length` bytes from the transport.  The result is
the pair (bytes written, bytes read). -/
def read_register (register length : Nat) (transport : List Nat) :
    List Nat × List Nat :=
  ([read_command register], transport.take length)

/-- The gain dictionary
`gain_map = {1: 0b000, 8: 0b011, 16: 0b100, 32: 0b101, 64: 0b110, 128: 0b111}`
as a lookup: `some code` when the gain is a key, `none` otherwise
(`gain not in gain_map`). -/
def gain_map (gain : Int) : Option Nat :=
  if gain = 1 then some 0b000
  else if gain = 8 then some 0b011
  else if gain = 16 then some 0b100
  else if gain = 32 then some 0b101
  else if gain = 64 then some 0b110
  else if gain = 128 then some 0b111
  else none

/-- The channel loop of `configure_adc` for a legal range `1..hi`
(`hi = 8` for pseudo-differential, `hi = 4` for differential):
```
for ch in channels:
    if 1 <= ch <= hi:
        channel_mask |= (1 << (ch - 1))
    else:
        raise ValueError("Invalid channel ...")
```
`acc` is the mask accumulated so far. -/
def channel_mask_loop (hi : Int) (acc : Nat) : List Int → Except AdcError Nat
  | [] => .ok acc
  | ch :: rest =>
    if 1 ≤ ch ∧ ch ≤ hi then
      channel_mask_loop hi (acc ||| (1 <<< (ch - 1).toNat)) rest
    else .error .invalidChannel

/-- The validation and bit-packing part of `configure_adc(self, mode,
polarity, channels, gain)`, up to and including
`config_value = (unipolar_bit << 12) | (gain_map[gain] << 8) | channel_mask`.
Returns the packed 24-bit configuration value, or the validation error. -/
def adc_config_value (mode polarity : String) (channels : List Int) (gain : Int) :
    Except AdcError Nat :=
  if mode ≠ "pseudo-differential" ∧ mode ≠ "differential" then
    .error .invalidMode
  else if polarity ≠ "unipolar" ∧ polarity ≠ "bipolar" then
    .error .invalidPolarity
  else
    match gain_map gain with
    | none => .error .invalidGain
    | some g =>
      match (if mode = "pseudo-differential" then channel_mask_loop 8 0 channels
             else channel_mask_loop 4 0 channels) with
      | .error e => .error e
      | .ok channel_mask =>
        let unipolar_bit : Nat := if polarity = "bipolar" then 0 else 1
        .ok ((unipolar_bit <<< 12) ||| (g <<< 8) ||| channel_mask)

/-- Method `configure_adc(self, mode, polarity, channels, gain)`: validates and
packs the configuration value, then executes
`self.write_register(self.CONFIGURATION_REGISTER, config_value)` — passing
the packed value as a Python `int`. -/
def configure_adc (mode polarity : String) (channels : List Int) (gain : Int) :
    Except AdcError (List Nat) :=
  match adc_config_value mode polarity channels gain with
  | .error e => .error e
  | .ok config_value => write_register CONFIGURATION_REGISTER (.int config_value)

/-- Method `get_active_channels(self)` applied to an already-read 24-bit
configuration register value:
```
for channel in range(8):
    if config & (1 << channel):
        active_channels.append(channel)
```  -/
def get_active_channels (config : Nat) : List Nat :=
  (List.range 8).filter fun channel => config &&& (1 <<< channel) ≠ 0

/-- Method `data_ready(self)` applied to the status byte read from the status
register: `return not (status & 0x80)` — ready when bit 7 is clear. -/
def data_ready (status : Nat) : Bool := status &&& 0x80 == 0

/-- The polling loop of `wait_for_data_ready`, in a discrete time model:
poll `k` reads status byte `status k`; the `time.sleep(0.001)` between polls
makes poll `k` happen `k` milliseconds after `start` (reads are instant), so
the check `(time.monotonic() - start) > timeout` at poll `k` is
`timeout_ms < k`. -/
def wait_from (status : Nat → Nat) (timeout_ms : Nat) (k : Nat) :
    Except AdcError Nat :=
  if data_ready (status k) then .ok k
  else if timeout_ms < k then .error .timeout
  else wait_from status timeout_ms (k + 1)
termination_by timeout_ms + 1 - k
decreasing_by simp_all; omega

/-- Method `wait_for_data_ready(self, timeout)`:
```
start = time.monotonic()
while not self.data_ready():
    if (time.monotonic() - start) > timeout:
        raise TimeoutError("Timeout waiting for data ready")
    time.sleep(0.001)  # Poll every 1 ms
```
modelled over the discrete time base of `wait_from` (1 poll per
millisecond); `status k` is the status byte returned by the transport at
the k-th poll, and the result `.ok k` means the loop exited normally at
poll `k`. -/
def wait_for_data_ready (status : Nat → Nat) (timeout_ms : Nat) :
    Except AdcError Nat :=
  wait_from status timeout_ms 0

end AD7193

/-- The command-byte layout asserted by the spec sentence, modelled from the
spec words: register selector in the top 5 bits (bits 3–7), the read/write
flag in the next bit (bit 2), two reserved low bits. -/
def spec_command_byte (register : Nat) (readFlag : Bool) : Nat :=
  (register <<< 3) ||| ((if readFlag then 1 else 0) <<< 2)

/-! ## Helper lemmas -/

deriving instance DecidableEq for Except

namespace AD5628

/-- Sanity check of the embedding of Python's bitwise or: `pyOr` agrees with
Mathlib's two's-complement `Int.lor`. -/
theorem pyOr_eq_lor (x y : Int) : pyOr x y = Int.lor x y := by
  cases x <;> cases y <;> simp [pyOr, Int.lor, natDiff, Nat.ldiff] <;>
    refine Nat.eq_of_testBit_eq fun i => ?_ <;> simp [Nat.testBit_ldiff] <;>
    rw [show ∀ (a b : Bool), (a ^^ (a && b)) = (a && !b) from by decide]

/-- Sanity check of the embedding of Python's bitwise and: `pyAnd` agrees
with Mathlib's two's-complement `Int.land`. -/
theorem pyAnd_eq_land (x y : Int) : pyAnd x y = Int.land x y := by
  cases x <;> cases y <;> simp [pyAnd, Int.land, natDiff, Nat.ldiff] <;>
    refine Nat.eq_of_testBit_eq fun i => ?_ <;> simp [Nat.testBit_ldiff] <;>
    rw [show ∀ (a b : Bool), (a ^^ (a && b)) = (a && !b) from by decide]

theorem pyOr_natCast (a b : Nat) : pyOr (a : Int) (b : Int) = ((a ||| b : Nat) : Int) := rfl

theorem to_bytes_4_big_natCast (n : Nat) (h : n < 2 ^ 32) :
    to_bytes_4_big (n : Int) = .ok (beBytes4 n) := by
  unfold to_bytes_4_big
  rw [if_pos ⟨Int.natCast_nonneg n, by exact_mod_cast h⟩]
  simp

/-- Disjoint bit fields combine additively: the or of a command byte field,
a channel field and a small data field is their sum. -/
theorem pyOr_word (cmd : Nat) (c d : Int) (hc0 : 0 ≤ c) (hc : c < 16)
    (hd0 : 0 ≤ d) (hd : d < 4096) :
    pyOr (pyOr ((cmd : Int) * 2 ^ 24) (c * 2 ^ 20)) (d * 2 ^ 8)
      = ((cmd * 2 ^ 24 + c.toNat * 2 ^ 20 + d.toNat * 2 ^ 8 : Nat) : Int) := by
  lift c to ℕ using hc0 with cn
  lift d to ℕ using hd0 with dn
  have hcn : cn < 16 := by exact_mod_cast hc
  have hdn : dn < 4096 := by exact_mod_cast hd
  have e1 : cmd * 2 ^ 24 ||| cn * 2 ^ 20 = cmd * 2 ^ 24 + cn * 2 ^ 20 := by
    calc cmd * 2 ^ 24 ||| cn * 2 ^ 20 = 2 ^ 24 * cmd ||| cn * 2 ^ 20 := by
          rw [Nat.mul_comm]
      _ = 2 ^ 24 * cmd + cn * 2 ^ 20 :=
          (Nat.mul_add_lt_is_or (by omega) cmd).symm
      _ = cmd * 2 ^ 24 + cn * 2 ^ 20 := by ring
  have e2 : (cmd * 2 ^ 24 + cn * 2 ^ 20) ||| dn * 2 ^ 8
      = cmd * 2 ^ 24 + cn * 2 ^ 20 + dn * 2 ^ 8 := by
    have hrw : cmd * 2 ^ 24 + cn * 2 ^ 20 = 2 ^ 20 * (16 * cmd + cn) := by ring
    calc (cmd * 2 ^ 24 + cn * 2 ^ 20) ||| dn * 2 ^ 8
        = 2 ^ 20 * (16 * cmd + cn) ||| dn * 2 ^ 8 := by rw [hrw]
      _ = 2 ^ 20 * (16 * cmd + cn) + dn * 2 ^ 8 :=
          (Nat.mul_add_lt_is_or (by omega) _).symm
      _ = cmd * 2 ^ 24 + cn * 2 ^ 20 + dn * 2 ^ 8 := by ring
  have key : (cmd * 2 ^ 24 ||| cn * 2 ^ 20) ||| dn * 2 ^ 8
      = cmd * 2 ^ 24 + cn * 2 ^ 20 + dn * 2 ^ 8 := by rw [e1, e2]
  have h1 : ((cmd : Int) * 2 ^ 24) = ((cmd * 2 ^ 24 : Nat) : Int) := by push_cast; ring
  have h2 : ((cn : Int) * 2 ^ 20) = ((cn * 2 ^ 20 : Nat) : Int) := by push_cast; ring
  have h3 : ((dn : Int) * 2 ^ 8) = ((dn * 2 ^ 8 : Nat) : Int) := by push_cast; ring
  rw [h1, h2, h3, pyOr_natCast, pyOr_natCast]
  simp only [Int.toNat_natCast]
  rw [Nat.cast_inj]
  exact key

/-- A `send_data` call never raises the channel-validation error. -/
theorem send_data_ne_invalidChannel (v : Int) :
    send_data v ≠ .error .invalidChannel := by
  unfold send_data to_bytes_4_big
  split <;> simp

end AD5628

/-! ## Claim C3 — channel validation in `update_dac` / `write_update_dac` /
`load_ldac` -/

/-- Claim C3, counterexample: the claim says every channel outside
`{0..7, 15}` — including negative values — raises `InvalidChannel`.  But the
guard `channel >= MAX_CHANNELS and channel != DAC_ALL_CHANNELS` is false for
negative channels, so `update_dac(-1, 0)` and `write_update_dac(-1, 0)` pass
validation and later fail in `to_bytes` with `OverflowError` (the packed
command word is negative), and `load_ldac(-1)` fails at `0x01 << channel`
with a negative-shift `ValueError` — none of them with `InvalidChannel`. -/
theorem dac_negative_channel_counterexample :
    AD5628.update_dac (-1) 0 = .error .overflowError
  ∧ AD5628.write_update_dac (-1) 0 = .error .overflowError
  ∧ AD5628.load_ldac (-1) = .error .negativeShiftCount
  ∧ AD5628.DacError.overflowError ≠ AD5628.DacError.invalidChannel
  ∧ AD5628.DacError.negativeShiftCount ≠ AD5628.DacError.invalidChannel := by
  refine ⟨rfl, rfl, rfl, by decide, by decide⟩

/-- Claim C3, amended: each of `update_dac`, `write_update_dac` and
`load_ldac` raises `InvalidChannel` exactly when the channel is `>= 8` and
not equal to `15` (so channels `8..14` and channels above `15` raise it, and
channels in `{0..7, 15}` never do); negative channels slip past this
validation and do not raise `InvalidChannel` (they fail later while encoding
the command word). -/
theorem dac_invalid_channel_iff (channel data : Int) :
    (AD5628.update_dac channel data = .error .invalidChannel
      ↔ 8 ≤ channel ∧ channel ≠ 15)
  ∧ (AD5628.write_update_dac channel data = .error .invalidChannel
      ↔ 8 ≤ channel ∧ channel ≠ 15)
  ∧ (AD5628.load_ldac channel = .error .invalidChannel
      ↔ 8 ≤ channel ∧ channel ≠ 15) := by
  have hsend : ∀ v : Int, AD5628.send_data v ≠ .error .invalidChannel :=
    AD5628.send_data_ne_invalidChannel
  refine ⟨?_, ?_, ?_⟩
  · unfold AD5628.update_dac
    by_cases h : AD5628.MAX_CHANNELS ≤ channel ∧ channel ≠ AD5628.DAC_ALL_CHANNELS
    · rw [if_pos h]
      exact iff_of_true rfl h
    · rw [if_neg h]
      exact iff_of_false (hsend _) h
  · unfold AD5628.write_update_dac
    by_cases h : AD5628.MAX_CHANNELS ≤ channel ∧ channel ≠ AD5628.DAC_ALL_CHANNELS
    · rw [if_pos h]
      exact iff_of_true rfl h
    · rw [if_neg h]
      exact iff_of_false (hsend _) h
  · unfold AD5628.load_ldac
    by_cases h : AD5628.MAX_CHANNELS ≤ channel ∧ channel ≠ AD5628.DAC_ALL_CHANNELS
    · rw [if_pos h]
      exact iff_of_true rfl h
    · rw [if_neg h]
      refine iff_of_false ?_ h
      by_cases hneg : channel < 0
      · rw [if_pos hneg]
        simp
      · rw [if_neg hneg]
        exact hsend _

/-! ## Claim C5 — the DAC command word layout of `update_dac` and
`write_update_dac` -/

/-- Claim C5, counterexample: the claim places the opcode in the top 4 bits
(bits 28–31) of the 32-bit command word and says the claim holds for every
data value.  Both parts fail: `update_dac(0, 0)` sends `01 00 00 00`, a word
whose top 4 bits are `0x0`, with the opcode `0x1` sitting in bits 24–27
instead; and `update_dac(0, 0x1000)` (data `= 2 ^ 12`, unmasked) sends
`01 10 00 00`, a word whose channel nibble (bits 20–23) reads `0x1` even
though the requested channel is `0`. -/
theorem dac_update_word_counterexample :
    AD5628.update_dac 0 0 = .ok [0x01, 0x00, 0x00, 0x00]
  ∧ (0x01000000 : Nat) = 0x01 * 2 ^ 24 + 0x00 * 2 ^ 16 + 0x00 * 2 ^ 8 + 0x00
  ∧ (0x01000000 : Nat) >>> 28 = 0x0
  ∧ (0x0 : Nat) ≠ 0x1
  ∧ AD5628.update_dac 0 0x1000 = .ok [0x01, 0x10, 0x00, 0x00]
  ∧ ((0x01100000 : Nat) >>> 20) &&& 0xF = 0x1
  ∧ (0x1 : Nat) ≠ 0x0 := by
  refine ⟨rfl, by norm_num, by decide, by decide, rfl, by decide, by decide⟩

/-- Claim C5, amended: for every channel `c` in `{0..7, 15}` and every data
value `d` that fits the 12-bit field `0 ≤ d < 2 ^ 12`, `update_dac` and
`write_update_dac` send exactly 4 bytes, the big-endian encoding of the
32-bit word `opcode * 2^24 + c * 2^20 + d * 2^8`: the opcode (`0x1` for
`update_dac`, `0x3` for `write_update_dac`) occupies bits 24–27 (not the top
4 bits, which are zero), the channel occupies bits 20–23, the data occupies
bits 8–19, and the low byte is zero.  Data values of 12 bits or more
overflow into the channel and opcode fields and are excluded. -/
theorem dac_update_word_layout (c d : Int)
    (hc : 0 ≤ c ∧ c < 8 ∨ c = 15) (hd0 : 0 ≤ d) (hd : d < 4096) :
    AD5628.update_dac c d
      = .ok (AD5628.beBytes4 (0x1 * 2 ^ 24 + c.toNat * 2 ^ 20 + d.toNat * 2 ^ 8))
  ∧ AD5628.write_update_dac c d
      = .ok (AD5628.beBytes4 (0x3 * 2 ^ 24 + c.toNat * 2 ^ 20 + d.toNat * 2 ^ 8))
  ∧ (AD5628.beBytes4 (0x1 * 2 ^ 24 + c.toNat * 2 ^ 20 + d.toNat * 2 ^ 8)).length = 4
  ∧ (0x1 * 2 ^ 24 + c.toNat * 2 ^ 20 + d.toNat * 2 ^ 8) >>> 28 = 0
  ∧ (0x1 * 2 ^ 24 + c.toNat * 2 ^ 20 + d.toNat * 2 ^ 8) >>> 24 % 16 = 0x1
  ∧ (0x3 * 2 ^ 24 + c.toNat * 2 ^ 20 + d.toNat * 2 ^ 8) >>> 24 % 16 = 0x3
  ∧ (0x1 * 2 ^ 24 + c.toNat * 2 ^ 20 + d.toNat * 2 ^ 8) >>> 20 % 16 = c.toNat
  ∧ (0x1 * 2 ^ 24 + c.toNat * 2 ^ 20 + d.toNat * 2 ^ 8) >>> 8 % 2 ^ 12 = d.toNat
  ∧ (0x1 * 2 ^ 24 + c.toNat * 2 ^ 20 + d.toNat * 2 ^ 8) % 2 ^ 8 = 0 := by
  have hc0 : 0 ≤ c := by
    rcases hc with ⟨h, _⟩ | rfl
    · exact h
    · decide
  have hc16 : c < 16 := by
    rcases hc with ⟨_, h⟩ | rfl
    · omega
    · decide
  have hcn : c.toNat < 16 := by omega
  have hdn : d.toNat < 4096 := by omega
  have hguard : ¬(AD5628.MAX_CHANNELS ≤ c ∧ c ≠ AD5628.DAC_ALL_CHANNELS) := by
    unfold AD5628.MAX_CHANNELS AD5628.DAC_ALL_CHANNELS
    rcases hc with ⟨_, h⟩ | rfl
    · omega
    · omega
  have hword1 := AD5628.pyOr_word 0x1 c d hc0 hc16 hd0 hd
  have hword3 := AD5628.pyOr_word 0x3 c d hc0 hc16 hd0 hd
  have hb1 : 0x1 * 2 ^ 24 + c.toNat * 2 ^ 20 + d.toNat * 2 ^ 8 < 2 ^ 32 := by omega
  have hb3 : 0x3 * 2 ^ 24 + c.toNat * 2 ^ 20 + d.toNat * 2 ^ 8 < 2 ^ 32 := by omega
  refine ⟨?_, ?_, by simp [AD5628.beBytes4], ?_, ?_, ?_, ?_, ?_, ?_⟩
  · unfold AD5628.update_dac
    rw [if_neg hguard]
    unfold AD5628.send_data
    rw [show AD5628.CMD_UPDATE_DAC = ((0x1 : Nat) : Int) from rfl, hword1,
      AD5628.to_bytes_4_big_natCast _ hb1]
  · unfold AD5628.write_update_dac
    rw [if_neg hguard]
    unfold AD5628.send_data
    rw [show AD5628.CMD_WRITE_AND_UPDATE_DAC = ((0x3 : Nat) : Int) from rfl, hword3,
      AD5628.to_bytes_4_big_natCast _ hb3]
  · rw [Nat.shiftRight_eq_div_pow]; omega
  · rw [Nat.shiftRight_eq_div_pow]; omega
  · rw [Nat.shiftRight_eq_div_pow]; omega
  · rw [Nat.shiftRight_eq_div_pow]; omega
  · rw [Nat.shiftRight_eq_div_pow]; omega
  · omega

/-- Claim C5, witness: the amended layout theorem instantiated at channel 2
and data `0xABC`. -/
theorem dac_update_word_layout_witness :
    AD5628.update_dac 2 0xABC
      = .ok (AD5628.beBytes4 (0x1 * 2 ^ 24 + (2 : Int).toNat * 2 ^ 20 + (0xABC : Int).toNat * 2 ^ 8))
  ∧ AD5628.write_update_dac 2 0xABC
      = .ok (AD5628.beBytes4 (0x3 * 2 ^ 24 + (2 : Int).toNat * 2 ^ 20 + (0xABC : Int).toNat * 2 ^ 8)) := by
  have h := dac_update_word_layout 2 0xABC (by norm_num) (by norm_num) (by norm_num)
  exact ⟨h.1, h.2.1⟩

/-! ## Claim C6 — `load_clear_code` validation and encoding -/

/-- Claim C6, confirmed: `load_clear_code(code)` raises `InvalidClearCode`
exactly when `code` is not one of `{0x0, 0x80000, 0xFFFFF}`, and for
`code = 0x80000` it succeeds and sends the 4 big-endian bytes of the command
word `0x05080000` (bytes `05 08 00 00`). -/
theorem dac_load_clear_code_spec :
    (∀ code : Int,
      AD5628.load_clear_code code = .error .invalidClearCode
        ↔ ¬(code = 0x0 ∨ code = 0x80000 ∨ code = 0xFFFFF))
  ∧ AD5628.load_clear_code 0x80000 = .ok (AD5628.beBytes4 0x05080000)
  ∧ AD5628.beBytes4 0x05080000 = [0x05, 0x08, 0x00, 0x00] := by
  refine ⟨?_, by decide, by decide⟩
  intro code
  by_cases hmem : code = 0x0 ∨ code = 0x80000 ∨ code = 0xFFFFF
  · refine iff_of_false ?_ (not_not_intro hmem)
    rcases hmem with rfl | rfl | rfl <;> exact fun h => by cases h
  · refine iff_of_true ?_ hmem
    unfold AD5628.load_clear_code
    rw [if_pos hmem]

/-! ## Claim C10 — `load_ldac` LDAC bitmask encoding -/

/-- Claim C10, confirmed: `load_ldac(15)` — the accepted broadcast value —
sends a command word with an all-zero LDAC bitmask, bytes `06 00 00 00`,
because `(1 << 15) & 0xFF = 0`; and for each channel `c` in `{0..7}` it
sends the big-endian encoding of `0x06000000 | ((1 << c) << 8)`, the word
with exactly bit `c` set in the 8-bit mask byte. -/
theorem dac_load_ldac_layout :
    AD5628.load_ldac 15 = .ok (AD5628.beBytes4 0x06000000)
  ∧ AD5628.beBytes4 0x06000000 = [0x06, 0x00, 0x00, 0x00]
  ∧ ((1 <<< 15) &&& 0xFF : Nat) = 0
  ∧ ∀ c : Int, 0 ≤ c → c < 8 →
      AD5628.load_ldac c = .ok (AD5628.beBytes4 (0x06000000 ||| (1 <<< c.toNat) <<< 8)) := by
  refine ⟨by decide, by decide, by decide, ?_⟩
  intro c h0 h8
  interval_cases c <;> decide

/-- Claim C10, witness: the per-channel part instantiated at channel 3
(mask byte `0x08`). -/
theorem dac_load_ldac_layout_witness :
    AD5628.load_ldac 3 = .ok (AD5628.beBytes4 (0x06000000 ||| (1 <<< (3 : Int).toNat) <<< 8)) :=
  dac_load_ldac_layout.2.2.2 3 (by decide) (by decide)

namespace AD7193

/-- A channel list containing an out-of-range channel makes the channel loop
raise `InvalidChannel`, whatever mask has been accumulated. -/
theorem channel_mask_loop_error (hi : Int) :
    ∀ (l : List Int), (∃ ch ∈ l, ¬(1 ≤ ch ∧ ch ≤ hi)) →
      ∀ acc, channel_mask_loop hi acc l = .error .invalidChannel := by
  intro l
  induction l with
  | nil =>
    rintro ⟨ch, hmem, _⟩
    cases hmem
  | cons a l ih =>
    rintro ⟨ch, hmem, hbad⟩ acc
    unfold channel_mask_loop
    by_cases ha : 1 ≤ a ∧ a ≤ hi
    · rw [if_pos ha]
      apply ih
      rcases List.mem_cons.mp hmem with rfl | hch
      · exact absurd ha hbad
      · exact ⟨ch, hch, hbad⟩
    · rw [if_neg ha]

/-- A successful channel loop means every listed channel was in range,
and the resulting mask has exactly the bits of the accumulator plus one bit
`ch - 1` per listed channel `ch`. -/
theorem channel_mask_loop_ok (hi : Int) :
    ∀ (l : List Int) (acc m : Nat), channel_mask_loop hi acc l = .ok m →
      (∀ ch ∈ l, 1 ≤ ch ∧ ch ≤ hi) ∧
      (∀ k : Nat, m.testBit k = true ↔
        (acc.testBit k = true ∨ ∃ ch ∈ l, (ch - 1).toNat = k)) := by
  intro l
  induction l with
  | nil =>
    intro acc m h
    unfold channel_mask_loop at h
    cases h
    simp
  | cons a l ih =>
    intro acc m h
    unfold channel_mask_loop at h
    by_cases ha : 1 ≤ a ∧ a ≤ hi
    · rw [if_pos ha] at h
      obtain ⟨hvalid, hbits⟩ := ih _ _ h
      refine ⟨?_, ?_⟩
      · intro ch hch
        rcases List.mem_cons.mp hch with rfl | hch
        · exact ha
        · exact hvalid ch hch
      · intro k
        rw [hbits k]
        have hone : (1 <<< (a - 1).toNat) = 2 ^ (a - 1).toNat := by
          rw [Nat.shiftLeft_eq, Nat.one_mul]
        simp only [Nat.testBit_or, hone, Nat.testBit_two_pow, Bool.or_eq_true,
          decide_eq_true_eq, List.mem_cons]
        constructor
        · rintro (⟨hacc | heq⟩ | ⟨ch, hch, hk⟩)
          · exact Or.inl hacc
          · exact Or.inr ⟨a, Or.inl rfl, heq⟩
          · exact Or.inr ⟨ch, Or.inr hch, hk⟩
        · rintro (hacc | ⟨ch, (rfl | hch), hk⟩)
          · exact Or.inl (Or.inl hacc)
          · exact Or.inl (Or.inr hk)
          · exact Or.inr ⟨ch, hch, hk⟩
    · rw [if_neg ha] at h
      cases h

/-- A gain code produced by the gain dictionary is at most `0b111`. -/
theorem gain_map_le (gain : Int) (g : Nat) (h : gain_map gain = some g) : g ≤ 7 := by
  unfold gain_map at h
  split at h
  · cases h; decide
  · split at h
    · cases h; decide
    · split at h
      · cases h; decide
      · split at h
        · cases h; decide
        · split at h
          · cases h; decide
          · split at h
            · cases h; decide
            · cases h

/-- A gain outside `{1, 8, 16, 32, 64, 128}` is not a key of the gain
dictionary. -/
theorem gain_map_eq_none (gain : Int)
    (h : ¬(gain = 1 ∨ gain = 8 ∨ gain = 16 ∨ gain = 32 ∨ gain = 64 ∨ gain = 128)) :
    gain_map gain = none := by
  push_neg at h
  obtain ⟨h1, h2, h3, h4, h5, h6⟩ := h
  unfold gain_map
  rw [if_neg h1, if_neg h2, if_neg h3, if_neg h4, if_neg h5, if_neg h6]

/-- A gain in `{1, 8, 16, 32, 64, 128}` is a key of the gain dictionary. -/
theorem gain_map_is_some (gain : Int)
    (h : gain = 1 ∨ gain = 8 ∨ gain = 16 ∨ gain = 32 ∨ gain = 64 ∨ gain = 128) :
    ∃ g, gain_map gain = some g := by
  rcases h with rfl | rfl | rfl | rfl | rfl | rfl <;> exact ⟨_, rfl⟩

/-- A configuration-value error is also a `configure_adc` error. -/
theorem configure_adc_error_of_config_error (mode polarity : String)
    (channels : List Int) (gain : Int) (e : AdcError)
    (h : adc_config_value mode polarity channels gain = .error e) :
    configure_adc mode polarity channels gain = .error e := by
  unfold configure_adc
  rw [h]

/-- Every nonempty list of integers has a maximal element. -/
theorem exists_max_mem (l : List Int) (h : l ≠ []) :
    ∃ m ∈ l, ∀ x ∈ l, x ≤ m := by
  induction l with
  | nil => cases h rfl
  | cons a l ih =>
    rcases eq_or_ne l [] with rfl | hl
    · exact ⟨a, List.mem_cons_self a [], by simp⟩
    · obtain ⟨m, hm, hmax⟩ := ih hl
      rcases le_total a m with hle | hle
      · refine ⟨m, List.mem_cons_of_mem a hm, ?_⟩
        intro x hx
        rcases List.mem_cons.mp hx with rfl | hx
        · exact hle
        · exact hmax x hx
      · refine ⟨a, List.mem_cons_self a l, ?_⟩
        intro x hx
        rcases List.mem_cons.mp hx with rfl | hx
        · exact le_refl x
        · exact (hmax x hx).trans hle

/-- Membership in the decoded active-channel list of a packed configuration
value: for `k < 8` only the channel-mask bits matter (the gain field at bits
8–10 and the polarity bit at bit 12 sit above the mask byte). -/
theorem mem_get_active_channels_packed (u g mask k : Nat) :
    k ∈ get_active_channels ((u <<< 12) ||| (g <<< 8) ||| mask)
      ↔ k < 8 ∧ mask.testBit k = true := by
  unfold get_active_channels
  rw [List.mem_filter, List.mem_range]
  constructor
  · rintro ⟨hk, hbit⟩
    refine ⟨hk, ?_⟩
    rw [decide_eq_true_eq] at hbit
    have h2 : (1 <<< k) = 2 ^ k := by rw [Nat.shiftLeft_eq, Nat.one_mul]
    rw [h2, Nat.and_two_pow] at hbit
    have : Nat.testBit ((u <<< 12) ||| (g <<< 8) ||| mask) k = true := by
      by_contra hfalse
      rw [Bool.not_eq_true] at hfalse
      rw [hfalse] at hbit
      simp at hbit
    rw [Nat.testBit_or, Nat.testBit_or, Nat.testBit_shiftLeft, Nat.testBit_shiftLeft] at this
    have h12 : ¬ (12 ≤ k) := by omega
    have h8 : ¬ (8 ≤ k) := by omega
    simpa [h12, h8] using this
  · rintro ⟨hk, hbit⟩
    refine ⟨hk, ?_⟩
    rw [decide_eq_true_eq]
    have h2 : (1 <<< k) = 2 ^ k := by rw [Nat.shiftLeft_eq, Nat.one_mul]
    have : Nat.testBit ((u <<< 12) ||| (g <<< 8) ||| mask) k = true := by
      rw [Nat.testBit_or, Nat.testBit_or, hbit]
      simp
    rw [h2, Nat.and_two_pow, this]
    simp

end AD7193

/-! ## Claim C1 — `configure_adc` passes an `int` to `write_register` -/

/-- Claim C1, confirmed: for every argument tuple that passes all of
`configure_adc`'s validation checks (mode, polarity, gain and every
channel), the subsequent call
`write_register(CONFIGURATION_REGISTER, config_value)` receives the packed
value as an `int`, and `bytes([command]) + value` raises `TypeError` before
the SPI device is entered — the configuration register is never written and
no bytes reach the transport (an `.error` result in this model means the
exception fired before any write). -/
theorem adc_configure_type_error (mode polarity : String) (channels : List Int)
    (gain : Int) (v : Nat)
    (h : AD7193.adc_config_value mode polarity channels gain = .ok v) :
    AD7193.configure_adc mode polarity channels gain = .error .typeError := by
  unfold AD7193.configure_adc
  rw [h]
  rfl

/-- Claim C1, witness: the fully valid call
`configure_adc('pseudo-differential', 'unipolar', [1], 1)` packs `0x1001`
and then raises `TypeError`. -/
theorem adc_configure_type_error_witness :
    AD7193.configure_adc "pseudo-differential" "unipolar" [1] 1 = .error .typeError :=
  adc_configure_type_error "pseudo-differential" "unipolar" [1] 1 0x1001 (by decide)

/-! ## Claim C2 — the packed configuration value of the spec's example -/

/-- Claim C2, counterexample: the claim (and the spec) says
`configure_adc(mode='pseudo-differential', polarity='unipolar',
channels=[1,2,3,4], gain=32)` packs `0x1005`.  The code packs `0x150F`:
`0x1005` has neither the channel bits 0–3 (`0x0F`) nor the gain code
`0b101` at bits 8–10 that the very same sentence requires. -/
theorem adc_config_value_counterexample :
    AD7193.adc_config_value "pseudo-differential" "unipolar" [1, 2, 3, 4] 32
      = .ok 0x150F
  ∧ (0x150F : Nat) ≠ 0x1005 := by
  exact ⟨by decide, by decide⟩

/-- Claim C2, amended: the call packs `0x150F`, which is exactly channel
bits 0–3 set (`0x0F`), the gain code `0b101` (the mapped code for gain 32)
in bits 8–10, and the unipolar flag — placed at bit 12, one position above
the contiguous `(unipolar:1)(gain:3)(mask:8)` layout the spec describes
(bit 11 is zero). -/
theorem adc_config_value_0x150F :
    AD7193.adc_config_value "pseudo-differential" "unipolar" [1, 2, 3, 4] 32
      = .ok ((1 <<< 12) ||| (0b101 <<< 8) ||| 0b00001111)
  ∧ ((1 <<< 12) ||| (0b101 <<< 8) ||| (0b00001111 : Nat)) = 0x150F
  ∧ ((0x150F : Nat)).testBit 12 = true
  ∧ ((0x150F : Nat)).testBit 11 = false := by
  exact ⟨by decide, by decide, by decide, by decide⟩

/-! ## Claim C4 — the ADC command byte layout -/

/-- Claim C4, counterexample: the claim puts the read flag in the bit just
below a top-5-bit register field.  The code sets the read flag at bit 6
(`0x40`), inside the claimed register field: for register `0x01` the read
command byte is `0x48`, not the `0x0C` the claimed layout yields, and
extracting the claimed top-5-bit register field from `0x48` gives `9`, not
`1`. -/
theorem adc_command_byte_counterexample :
    AD7193.read_command 0x01 = 0x48
  ∧ spec_command_byte 0x01 true = 0x0C
  ∧ AD7193.read_command 0x01 ≠ spec_command_byte 0x01 true
  ∧ AD7193.read_command 0x01 >>> 3 = 9
  ∧ (9 : Nat) ≠ 0x01 := by
  exact ⟨by decide, by decide, by decide, by decide, by decide⟩

/-- Claim C4, amended: for the register addresses in use (`register < 8`)
the command byte is `register << 3` with the read/write flag at bit 6 —
layout `[zero(1)][readFlag(1)][register(3)][reserved(3)]`: the register
selector sits in bits 3–5 (not the top 5 bits), the read flag (set by
`read_register`, clear in `write_register`) sits at bit 6 (not bit 2), and
bits 0–2 are the reserved zero bits. -/
theorem adc_command_byte_layout (register : Nat) (h : register < 8) :
    AD7193.write_command register = register <<< 3
  ∧ AD7193.read_command register = (register <<< 3) ||| (1 <<< 6)
  ∧ AD7193.write_command register >>> 3 &&& 0x7 = register
  ∧ AD7193.read_command register >>> 3 &&& 0x7 = register
  ∧ AD7193.write_command register >>> 6 &&& 1 = 0
  ∧ AD7193.read_command register >>> 6 &&& 1 = 1
  ∧ AD7193.write_command register &&& 0x7 = 0
  ∧ AD7193.read_command register &&& 0x7 = 0
  ∧ AD7193.write_command register >>> 7 = 0
  ∧ AD7193.read_command register >>> 7 = 0 := by
  interval_cases register <;> exact ⟨by decide, by decide, by decide, by decide,
    by decide, by decide, by decide, by decide, by decide, by decide⟩

/-- Claim C4, witness: the amended layout at register `0x02` (the
configuration register): write command `0x10`, read command `0x50`. -/
theorem adc_command_byte_layout_witness :
    AD7193.write_command 0x02 = 0x02 <<< 3
  ∧ AD7193.read_command 0x02 = (0x02 <<< 3) ||| (1 <<< 6) :=
  ⟨(adc_command_byte_layout 0x02 (by decide)).1,
   (adc_command_byte_layout 0x02 (by decide)).2.1⟩

/-! ## Claim C7 — `configure_adc` validation errors -/

/-- Claim C7, confirmed: `configure_adc` raises `InvalidMode` when the mode
is not one of the two mode strings; with a valid mode it raises
`InvalidPolarity` when the polarity is not one of the two polarity strings;
with valid mode and polarity it raises `InvalidGain` when the gain is not in
`{1, 8, 16, 32, 64, 128}`; with valid mode, polarity and gain it raises
`InvalidChannel` when some listed channel is outside the mode's legal range
(1–8 for pseudo-differential, 1–4 for differential); in particular channel 9
in pseudo-differential mode and channel 5 in differential mode each raise
`InvalidChannel` (the checks run in that order, so each error condition is
stated under the success of the previous checks). -/
theorem adc_configure_validation (mode polarity : String) (channels : List Int)
    (gain : Int) :
    ((mode ≠ "pseudo-differential" ∧ mode ≠ "differential") →
      AD7193.configure_adc mode polarity channels gain = .error .invalidMode)
  ∧ ((mode = "pseudo-differential" ∨ mode = "differential") →
      (polarity ≠ "unipolar" ∧ polarity ≠ "bipolar") →
      AD7193.configure_adc mode polarity channels gain = .error .invalidPolarity)
  ∧ ((mode = "pseudo-differential" ∨ mode = "differential") →
      (polarity = "unipolar" ∨ polarity = "bipolar") →
      ¬(gain = 1 ∨ gain = 8 ∨ gain = 16 ∨ gain = 32 ∨ gain = 64 ∨ gain = 128) →
      AD7193.configure_adc mode polarity channels gain = .error .invalidGain)
  ∧ (mode = "pseudo-differential" →
      (polarity = "unipolar" ∨ polarity = "bipolar") →
      (gain = 1 ∨ gain = 8 ∨ gain = 16 ∨ gain = 32 ∨ gain = 64 ∨ gain = 128) →
      (∃ ch ∈ channels, ¬(1 ≤ ch ∧ ch ≤ 8)) →
      AD7193.configure_adc mode polarity channels gain = .error .invalidChannel)
  ∧ (mode = "differential" →
      (polarity = "unipolar" ∨ polarity = "bipolar") →
      (gain = 1 ∨ gain = 8 ∨ gain = 16 ∨ gain = 32 ∨ gain = 64 ∨ gain = 128) →
      (∃ ch ∈ channels, ¬(1 ≤ ch ∧ ch ≤ 4)) →
      AD7193.configure_adc mode polarity channels gain = .error .invalidChannel)
  ∧ AD7193.configure_adc "pseudo-differential" "unipolar" [9] 1
      = .error .invalidChannel
  ∧ AD7193.configure_adc "differential" "unipolar" [5] 1
      = .error .invalidChannel := by
  refine ⟨?_, ?_, ?_, ?_, ?_, by decide, by decide⟩
  · intro hmode
    apply AD7193.configure_adc_error_of_config_error
    unfold AD7193.adc_config_value
    rw [if_pos hmode]
  · intro hmode hpol
    have hmode2 : ¬(mode ≠ "pseudo-differential" ∧ mode ≠ "differential") := by
      tauto
    apply AD7193.configure_adc_error_of_config_error
    unfold AD7193.adc_config_value
    rw [if_neg hmode2, if_pos hpol]
  · intro hmode hpol hgain
    have hmode2 : ¬(mode ≠ "pseudo-differential" ∧ mode ≠ "differential") := by
      tauto
    have hpol2 : ¬(polarity ≠ "unipolar" ∧ polarity ≠ "bipolar") := by
      tauto
    apply AD7193.configure_adc_error_of_config_error
    unfold AD7193.adc_config_value
    rw [if_neg hmode2, if_neg hpol2, AD7193.gain_map_eq_none gain hgain]
  · intro hmode hpol hgain hch
    have hmode2 : ¬(mode ≠ "pseudo-differential" ∧ mode ≠ "differential") := by
      tauto
    have hpol2 : ¬(polarity ≠ "unipolar" ∧ polarity ≠ "bipolar") := by
      tauto
    obtain ⟨g, hg⟩ := AD7193.gain_map_is_some gain hgain
    apply AD7193.configure_adc_error_of_config_error
    unfold AD7193.adc_config_value
    rw [if_neg hmode2, if_neg hpol2, hg, if_pos hmode,
      AD7193.channel_mask_loop_error 8 channels hch 0]
  · intro hmode hpol hgain hch
    have hmode2 : ¬(mode ≠ "pseudo-differential" ∧ mode ≠ "differential") := by
      simp [hmode]
    have hpol2 : ¬(polarity ≠ "unipolar" ∧ polarity ≠ "bipolar") := by
      tauto
    have hmode3 : ¬(mode = "pseudo-differential") := by
      rw [hmode]
      decide
    obtain ⟨g, hg⟩ := AD7193.gain_map_is_some gain hgain
    apply AD7193.configure_adc_error_of_config_error
    unfold AD7193.adc_config_value
    rw [if_neg hmode2, if_neg hpol2, hg, if_neg hmode3,
      AD7193.channel_mask_loop_error 4 channels hch 0]

/-- Claim C7, witness: each validation branch fired on a concrete call —
a bad mode, a bad polarity under a valid mode, a bad gain under valid mode
and polarity, channel 9 in pseudo-differential mode and channel 5 in
differential mode. -/
theorem adc_configure_validation_witness :
    AD7193.configure_adc "single-ended" "unipolar" [1] 1 = .error .invalidMode
  ∧ AD7193.configure_adc "differential" "tripolar" [1] 1 = .error .invalidPolarity
  ∧ AD7193.configure_adc "pseudo-differential" "bipolar" [1] 2 = .error .invalidGain
  ∧ AD7193.configure_adc "pseudo-differential" "unipolar" [1, 9] 8 = .error .invalidChannel
  ∧ AD7193.configure_adc "differential" "bipolar" [5] 128 = .error .invalidChannel :=
  ⟨(adc_configure_validation "single-ended" "unipolar" [1] 1).1 (by decide),
   (adc_configure_validation "differential" "tripolar" [1] 1).2.1
     (Or.inr rfl) (by decide),
   (adc_configure_validation "pseudo-differential" "bipolar" [1] 2).2.2.1
     (Or.inl rfl) (Or.inr rfl) (by decide),
   (adc_configure_validation "pseudo-differential" "unipolar" [1, 9] 8).2.2.2.1
     rfl (Or.inl rfl) (by tauto) ⟨9, by decide, by decide⟩,
   (adc_configure_validation "differential" "bipolar" [5] 128).2.2.2.2.1
     rfl (Or.inr rfl) (by tauto) ⟨5, by decide, by decide⟩⟩

namespace AD7193

/-- When no poll ever sees the ready bit clear, the loop from any starting
poll ends in `Timeout`. -/
theorem wait_from_timeout (status : Nat → Nat) (T : Nat)
    (h : ∀ k, data_ready (status k) = false) :
    ∀ n k, T + 1 - k ≤ n → wait_from status T k = .error .timeout := by
  intro n
  induction n with
  | zero =>
    intro k hk
    rw [wait_from.eq_def, h k]
    simp only [Bool.false_eq_true, if_false]
    rw [if_pos (by omega : T < k)]
  | succ n ih =>
    intro k hk
    rw [wait_from.eq_def, h k]
    simp only [Bool.false_eq_true, if_false]
    by_cases hT : T < k
    · rw [if_pos hT]
    · rw [if_neg hT]
      exact ih (k + 1) (by omega)

/-- When poll `k0` is the first to see the ready bit clear and `k0` is
within the timeout budget, the loop from any poll `k ≤ k0` returns
normally at poll `k0`. -/
theorem wait_from_ready (status : Nat → Nat) (T k0 : Nat)
    (hr : data_ready (status k0) = true)
    (hbefore : ∀ j, j < k0 → data_ready (status j) = false)
    (hk0 : k0 ≤ T) :
    ∀ n k, k ≤ k0 → k0 - k ≤ n → wait_from status T k = .ok k0 := by
  intro n
  induction n with
  | zero =>
    intro k hk hn
    have hkk : k = k0 := by omega
    subst hkk
    rw [wait_from.eq_def, hr]
    simp
  | succ n ih =>
    intro k hk hn
    rcases eq_or_lt_of_le hk with rfl | hlt
    · rw [wait_from.eq_def, hr]
      simp
    · rw [wait_from.eq_def, hbefore k hlt]
      simp only [Bool.false_eq_true, if_false]
      rw [if_neg (by omega : ¬ T < k)]
      exact ih (k + 1) hlt (by omega)

end AD7193

/-! ## Claim C8 — `wait_for_data_ready` polling and timeout -/

/-- Claim C8, confirmed (in the discrete time model of `wait_from`: the
fixed `time.sleep(0.001)` makes poll `k` happen `k` milliseconds after
`start`, so the expiry check `(time.monotonic() - start) > timeout` at poll
`k` reads `timeout_ms < k`): against a transport whose every status read has
bit 7 set (`data_ready` false), the loop raises `Timeout` — at the first
poll past the timeout budget; and when some poll sees bit 7 clear no later
than the budget allows, the loop returns normally at that poll, without
raising. -/
theorem adc_wait_for_data_ready_spec (status : Nat → Nat) (timeout_ms : Nat) :
    ((∀ k, AD7193.data_ready (status k) = false) →
      AD7193.wait_for_data_ready status timeout_ms = .error .timeout)
  ∧ (∀ k0, AD7193.data_ready (status k0) = true →
      (∀ j, j < k0 → AD7193.data_ready (status j) = false) →
      k0 ≤ timeout_ms →
      AD7193.wait_for_data_ready status timeout_ms = .ok k0) := by
  constructor
  · intro h
    exact AD7193.wait_from_timeout status timeout_ms h (timeout_ms + 1) 0 (by omega)
  · intro k0 hr hb hk
    exact AD7193.wait_from_ready status timeout_ms k0 hr hb hk k0 0 (by omega) (by omega)

/-- Claim C8, witness: with a 10 ms budget, a transport that always returns
`0x80` (ready bit set, never ready) makes the wait raise `Timeout`, and a
transport whose reads return `0x80` until poll 3 returns `0x00` makes the
wait return normally at poll 3. -/
theorem adc_wait_for_data_ready_witness :
    AD7193.wait_for_data_ready (fun _ => 0x80) 10 = .error .timeout
  ∧ AD7193.wait_for_data_ready (fun k => if k = 3 then 0x00 else 0x80) 10 = .ok 3 :=
  ⟨(adc_wait_for_data_ready_spec (fun _ => 0x80) 10).1 (fun k => rfl),
   (adc_wait_for_data_ready_spec (fun k => if k = 3 then 0x00 else 0x80) 10).2 3
     (by decide) (by decide) (by decide)⟩

namespace AD7193

/-- Core of the channel-numbering-shift argument: for a packed value whose
mask bits come from a validated channel list (legal range `1..hi`, `hi ≤ 8`),
decoding yields precisely the channels shifted down by one, and never the
original list (as a set of integers) when the list is nonempty. -/
theorem get_active_channels_shift_core (hi : Int) (hhi : hi ≤ 8)
    (channels : List Int) (u g mask : Nat)
    (hvalid : ∀ ch ∈ channels, 1 ≤ ch ∧ ch ≤ hi)
    (hbits : ∀ k : Nat, mask.testBit k = true ↔
      ((0 : Nat).testBit k = true ∨ ∃ ch ∈ channels, (ch - 1).toNat = k)) :
    (∀ k : Nat, k ∈ get_active_channels ((u <<< 12) ||| (g <<< 8) ||| mask)
      ↔ ∃ ch ∈ channels, ch - 1 = (k : Int))
  ∧ (channels ≠ [] →
      ¬ ∀ x : Int, (∃ k ∈ get_active_channels ((u <<< 12) ||| (g <<< 8) ||| mask),
        (k : Int) = x) ↔ x ∈ channels) := by
  have hmem : ∀ k : Nat, k ∈ get_active_channels ((u <<< 12) ||| (g <<< 8) ||| mask)
      ↔ ∃ ch ∈ channels, ch - 1 = (k : Int) := by
    intro k
    rw [mem_get_active_channels_packed, hbits k]
    simp only [Nat.zero_testBit, Bool.false_eq_true, false_or]
    constructor
    · rintro ⟨hk8, ch, hch, htn⟩
      obtain ⟨h1, _⟩ := hvalid ch hch
      exact ⟨ch, hch, by omega⟩
    · rintro ⟨ch, hch, heq⟩
      obtain ⟨h1, h2⟩ := hvalid ch hch
      exact ⟨by omega, ch, hch, by omega⟩
  refine ⟨hmem, ?_⟩
  intro hne hall
  obtain ⟨m, hm, hmax⟩ := exists_max_mem channels hne
  obtain ⟨k, hk, hkm⟩ := (hall m).mpr hm
  obtain ⟨ch, hch, hcheq⟩ := (hmem k).mp hk
  have := hmax ch hch
  omega

end AD7193

/-! ## Claim C9 — the off-by-one between `configure_adc` and
`get_active_channels` -/

/-- Claim C9, confirmed: `configure_adc` maps each requested (1-based)
channel `n` to mask bit `n - 1`, while `get_active_channels` reports mask
bit `k` as (0-based) channel `k`; so whenever the configuration value is
built successfully from a channel list, decoding it yields exactly the set
`{ s - 1 : s ∈ channels }` — and, for a nonempty list, never the original
set of channel numbers itself. -/
theorem adc_channel_numbering_shift (mode polarity : String)
    (channels : List Int) (gain : Int) (v : Nat)
    (h : AD7193.adc_config_value mode polarity channels gain = .ok v) :
    (∀ k : Nat, k ∈ AD7193.get_active_channels v
      ↔ ∃ ch ∈ channels, ch - 1 = (k : Int))
  ∧ (channels ≠ [] →
      ¬ ∀ x : Int, (∃ k ∈ AD7193.get_active_channels v, (k : Int) = x)
        ↔ x ∈ channels) := by
  unfold AD7193.adc_config_value at h
  by_cases hm : mode ≠ "pseudo-differential" ∧ mode ≠ "differential"
  · rw [if_pos hm] at h
    cases h
  rw [if_neg hm] at h
  by_cases hp : polarity ≠ "unipolar" ∧ polarity ≠ "bipolar"
  · rw [if_pos hp] at h
    cases h
  rw [if_neg hp] at h
  cases hg : AD7193.gain_map gain with
  | none =>
    rw [hg] at h
    cases h
  | some g =>
    rw [hg] at h
    by_cases hmode8 : mode = "pseudo-differential"
    · rw [if_pos hmode8] at h
      cases hml : AD7193.channel_mask_loop 8 0 channels with
      | error e =>
        rw [hml] at h
        cases h
      | ok mask =>
        rw [hml] at h
        simp only [Except.ok.injEq] at h
        subst h
        obtain ⟨hvalid, hbits⟩ := AD7193.channel_mask_loop_ok 8 channels 0 mask hml
        exact AD7193.get_active_channels_shift_core 8 (by omega) channels _ g mask
          hvalid hbits
    · rw [if_neg hmode8] at h
      cases hml : AD7193.channel_mask_loop 4 0 channels with
      | error e =>
        rw [hml] at h
        cases h
      | ok mask =>
        rw [hml] at h
        simp only [Except.ok.injEq] at h
        subst h
        obtain ⟨hvalid, hbits⟩ := AD7193.channel_mask_loop_ok 4 channels 0 mask hml
        exact AD7193.get_active_channels_shift_core 4 (by omega) channels _ g mask
          hvalid hbits

/-- Claim C9, witness: configuring channels `[1, 2]` packs the value `3`
(bits 0 and 1), and decoding reports channel `0` active — because requested
channel `1` landed on mask bit `0`. -/
theorem adc_channel_numbering_shift_witness :
    0 ∈ AD7193.get_active_channels 3
      ↔ ∃ ch ∈ ([1, 2] : List Int), ch - 1 = ((0 : Nat) : Int) :=
  (adc_channel_numbering_shift "pseudo-differential" "bipolar" [1, 2] 1 3
    (by decide)).1 0
